import Mathlib

/-!
Shallow embedding of `voltha/adapters/adtran_olt/flow/evc_map.py` (class `EVCMap`).

Conventions of the embedding:
* Python object state becomes explicit state passing: each lifecycle operation
  takes the descriptor (and, when it touches the circuit, the circuit) and
  returns the updated values.
* Fallible code returns `Except String` values; a `.error` result models a
  Python exception escaping the translated block.
* The NETCONF transport is modelled by an oracle `NcResponse` supplied per
  request: a successful response, a failed response carrying an error string,
  or a raised transport exception.
* The device requests an operation issues are returned as an explicit trace,
  so that claims about which requests are sent can be stated.
-/

/-- Python `None`-able string rendered by `str.format`: `None` prints as "None". -/
def pyStr : Option String → String
  | some s => s
  | none => "None"

/-- Python `None`-able integer rendered by `str.format`. -/
def pyNat : Option Nat → String
  | some n => toString n
  | none => "None"

/-- Models `EVC_MAP_NAME_FORMAT` (VOLTHA-, ingress-port, -, flow id) applied by the
decoder to derive the descriptor name. -/
def evc_map_name (in_port flow_id : Nat) : String :=
  "VOLTHA-" ++ toString in_port ++ "-" ++ toString flow_id

/-- Transport oracle: outcome of one `edit_config` request.  `ok_resp` is a
successful response, `failed` a response with `ok = False` and an error
string, `exc` a raised transport exception. -/
inductive NcResponse where
  | ok_resp : NcResponse
  | failed : String → NcResponse
  | exc : String → NcResponse
deriving DecidableEq, Repr

/-- Models `results.ok` of a (non-exception) response. -/
def NcResponse.respOk : NcResponse → Bool
  | .ok_resp => true
  | .failed _ => false
  | .exc _ => false

/-- Models `class EvcConnection(Enum)`.  `DEFAULT = NO_EVC_CONNECTION` is an alias of
the first member in the Python Enum and is modelled as a definition below. -/
inductive EvcConnection where
  | NO_EVC_CONNECTION : EvcConnection
  | EVC : EvcConnection
  | DISCARD : EvcConnection
deriving DecidableEq, Repr

/-- Models `EvcConnection.DEFAULT` aliases `NO_EVC_CONNECTION`. -/
def EvcConnection.DEFAULT : EvcConnection := EvcConnection.NO_EVC_CONNECTION

/-- Models `EvcConnection.xml(value)`: translated branch for branch from the source,
including the second (dead) `elif value == EvcConnection.DISCARD` test and the
trailing `raise ValueError`. -/
def EvcConnection.xml (value : Option EvcConnection) : Except String String :=
  let v := match value with
    | none => EvcConnection.DEFAULT
    | some w => w
  if v = EvcConnection.DISCARD then
    Except.ok "<no-evc-connection/>"
  else if v = EvcConnection.DISCARD then
    Except.ok "discard/"
  else
    Except.error "Invalid EvcConnection enumeration"

/-- Models `class PriorityOption(Enum)`. -/
inductive PriorityOption where
  | INHERIT_PRIORITY : PriorityOption
  | EXPLICIT_PRIORITY : PriorityOption
deriving DecidableEq, Repr

/-- Models `PriorityOption.DEFAULT` aliases `INHERIT_PRIORITY`. -/
def PriorityOption.DEFAULT : PriorityOption := PriorityOption.INHERIT_PRIORITY

/-- Modelled from the spec: the flow-rule collaborator (`flow_entry.FlowEntry`
is not under src/).  Spec section 6 lists the fields this core reads:
ingress port, flow id, ether-type, IP protocol, destination IPv4, UDP ports,
inner VLAN id, pushed-tag list with protocol identifiers. -/
structure FlowEntry where
  in_port : Nat
  flow_id : Nat
  eth_type : Option Nat
  ip_protocol : Option Nat
  ipv4_dst : Option Nat
  udp_dst : Option Nat
  udp_src : Option Nat
  inner_vid : Option Nat
  push_vlan_id : List Nat
  push_vlan_tpid : List Nat
deriving DecidableEq, Repr

/-- Modelled from the spec: `FlowEntry.EtherType.IPv4.value` (the IPv4
ether-type constant of the external flow-entry module). -/
def FlowEntry.EtherType_IPv4 : Nat := 0x0800

/-- Modelled from the spec: `FlowEntry.EtherType.EAPOL.value` (the
link-control-protocol ether-type constant of the external flow-entry
module). -/
def FlowEntry.EtherType_EAPOL : Nat := 0x888e

/-- Modelled from the spec: `FlowEntry.IpProtocol.UDP.value` (the UDP IP
protocol number of the external flow-entry module). -/
def FlowEntry.IpProtocol_UDP : Nat := 17

/-- Modelled from the spec: `EVC.Men2UniManipulation` of the external circuit
module (symmetric single-tag mode vs strip-outer-only). -/
inductive Men2UniManipulation where
  | SYMMETRIC : Men2UniManipulation
  | POP_OUT_TAG_ONLY : Men2UniManipulation
deriving DecidableEq, Repr

/-- Modelled from the spec: `EVC.SwitchingMethod` of the external circuit
module (single-tagged vs double-tagged switching). -/
inductive SwitchingMethod where
  | SINGLE_TAGGED : SwitchingMethod
  | DOUBLE_TAGGED : SwitchingMethod
deriving DecidableEq, Repr

/-- Modelled from the spec: the circuit-side flow entry, of which this core
reads only `pop_vlan` (the pop count). -/
structure EvcFlowEntry where
  pop_vlan : Nat
deriving DecidableEq, Repr

/-- Modelled from the spec: the circuit (EVC) collaborator (`evc.EVC` is not
under src/).  It owns a collection of descriptors keyed by name
(`evc_maps`), carries circuit-wide tag-manipulation and switching-mode
fields, a CE-VLAN-preservation flag, and the descriptor registration
operations `add_evc_map` / `remove_evc_map`. -/
structure EVC where
  name : String
  flow_entry : EvcFlowEntry
  ce_vlan_preservation : Bool
  men_to_uni_tag_manipulation : Option Men2UniManipulation
  switching_method : Option SwitchingMethod
  stpid : Option Nat
  evc_maps : List String
deriving DecidableEq, Repr

/-- Modelled from the spec: `evc.add_evc_map(evc_map)` registers the
descriptor, keyed by name, in the circuit collection. -/
def EVC.add_evc_map (c : EVC) (n : String) : EVC :=
  { c with evc_maps := n :: c.evc_maps }

/-- Modelled from the spec: `evc.remove_evc_map(evc_map)` deregisters the
descriptor, keyed by name, from the circuit collection. -/
def EVC.remove_evc_map (c : EVC) (n : String) : EVC :=
  { c with evc_maps := c.evc_maps.filter (fun x => x != n) }

/-- Modelled from the spec: the shared-line (PON) port collaborator; its
`gem_ids(needs_acl)` call enumerates, per subscriber unit (ONU id), the
channel (GEM) ids owned by that unit.  Modelled as an ordered association
list, mirroring the insertion-ordered dict iterated by `pon_install`. -/
structure PonPort where
  gem_ids : Bool → List (Nat × List Nat)

/-- Modelled from the spec: the port-topology resolver reached through
`flow.handler` (port-role classification, port-name resolution, shared-line
lookup). -/
structure Handler where
  is_pon_port : Nat → Bool
  is_uni_port : Nat → Bool
  get_port_name : Nat → String
  get_southbound_port : Nat → Option PonPort

/-- The descriptor state: the instance fields of `EVCMap.__init__`.  The
back-references `self._flow` and `self._evc` are modelled by presence flags
(`flow_present`, `evc_attached`); the circuit object itself lives outside
the descriptor and is passed to the operations that touch it. -/
structure EVCMap where
  flow_present : Bool
  evc_attached : Bool
  gem_ids : Option (List (Nat × List Nat))
  is_ingress_map : Bool
  installed : Bool
  status_message : Option String
  name : Option String
  enabled : Bool
  uni_port : Option String
  evc_connection : EvcConnection
  evc_name : Option String
  men_priority : PriorityOption
  men_pri : Nat
  c_tag : Option Nat
  men_ctag_priority : PriorityOption
  men_ctag_pri : Nat
  match_ce_vlan_id : Option Nat
  match_untagged : Bool
  match_destination_mac_address : Option Nat
  match_l2cp : Bool
  match_broadcast : Bool
  match_multicast : Bool
  match_unicast : Bool
  match_igmp : Bool
  eth_type : Option Nat
  ip_protocol : Option Nat
  ipv4_dst : Option Nat
  udp_dst : Option Nat
  udp_src : Option Nat
  valid : Bool
deriving DecidableEq, Repr

/-- Models `EVCMap._needs_acl_support` property. -/
def EVCMap.needs_acl_support (m : EVCMap) : Bool :=
  m.eth_type.isSome || m.ip_protocol.isSome || m.ipv4_dst.isSome ||
    m.udp_dst.isSome || m.udp_src.isSome

/-- The field values set at the top of `__init__`, before `_decode` runs. -/
def EVCMap.init_map (evc_present : Bool) (is_ingress : Bool) : EVCMap where
  flow_present := true
  evc_attached := evc_present
  gem_ids := none
  is_ingress_map := is_ingress
  installed := false
  status_message := none
  name := none
  enabled := true
  uni_port := none
  evc_connection := EvcConnection.NO_EVC_CONNECTION
  evc_name := none
  men_priority := PriorityOption.INHERIT_PRIORITY
  men_pri := 0
  c_tag := none
  men_ctag_priority := PriorityOption.INHERIT_PRIORITY
  men_ctag_pri := 0
  match_ce_vlan_id := none
  match_untagged := true
  match_destination_mac_address := none
  match_l2cp := false
  match_broadcast := false
  match_multicast := false
  match_unicast := false
  match_igmp := false
  eth_type := none
  ip_protocol := none
  ipv4_dst := none
  udp_dst := none
  udp_src := none
  valid := false

/-- The `Except` success test used by the payload-build guards. -/
def exceptOk {e a : Type} : Except e a → Bool
  | Except.ok _ => true
  | Except.error _ => false

/-- Models `EVCMap._decode` (source lines 382-451).  Returns the decode outcome
(`.ok b` for a normal return of `b`, `.error` for a raised exception), the
descriptor with the fields the decoder populated, and the circuit object
after the circuit-wide side effects the decoder performs on it. -/
def EVCMap.decode (m : EVCMap) (flow : FlowEntry) (evc? : Option EVC) (hnd : Handler) :
    Except String Bool × EVCMap × Option EVC :=
  let m1 := { m with name := some (evc_map_name flow.in_port flow.flow_id) }
  match evc? with
  | none =>
      (Except.ok false,
       { m1 with status_message := some "Can only create EVC-MAP if EVC supplied" }, none)
  | some evc0 =>
      let m2 := { m1 with evc_connection := EvcConnection.EVC, evc_name := some evc0.name }
      let is_pon := hnd.is_pon_port flow.in_port
      let is_uni := hnd.is_uni_port flow.in_port
      if is_pon || is_uni then
        let m3 := { m2 with uni_port := some (hnd.get_port_name flow.in_port) }
        let evc1 := { evc0 with ce_vlan_preservation := false }
        let m4 := { m3 with eth_type := flow.eth_type }
        let m5 :=
          if m4.eth_type = some FlowEntry.EtherType_IPv4 then
            let m4a := { m4 with ip_protocol := flow.ip_protocol, ipv4_dst := flow.ipv4_dst }
            if m4a.ip_protocol = some FlowEntry.IpProtocol_UDP then
              { m4a with udp_dst := flow.udp_dst, udp_src := flow.udp_src }
            else m4a
          else m4
        let m6 :=
          if m5.is_ingress_map && is_pon then
            match hnd.get_southbound_port flow.in_port with
            | some pon_port =>
                let m5a := { m5 with gem_ids := some (pon_port.gem_ids m5.needs_acl_support) }
                if m5a.needs_acl_support && (m5a.eth_type != some FlowEntry.EtherType_EAPOL) then
                  { m5a with gem_ids := some [] }
                else m5a
            | none => m5
          else m5
        let m7 := { m6 with c_tag := flow.inner_vid }
        if flow.push_vlan_id.length = 1 ∧ evc1.flow_entry.pop_vlan = 1 then
          let evc2 := { evc1 with
            men_to_uni_tag_manipulation := some Men2UniManipulation.SYMMETRIC,
            switching_method := some SwitchingMethod.SINGLE_TAGGED }
          match flow.push_vlan_tpid.head? with
          | some tp => (Except.ok true, m7, some { evc2 with stpid := some tp })
          | none => (Except.error "IndexError: push_vlan_tpid", m7, some evc2)
        else if flow.push_vlan_id.length = 2 ∧ evc1.flow_entry.pop_vlan = 1 then
          let evc2 := { evc1 with
            men_to_uni_tag_manipulation := some Men2UniManipulation.POP_OUT_TAG_ONLY,
            switching_method := some SwitchingMethod.DOUBLE_TAGGED }
          (Except.error "NotImplementedError: TODO: Not supported yet", m7, some evc2)
        else
          (Except.ok true, m7, some evc1)
      else
        (Except.ok false,
         { m2 with status_message := some "EVC-MAPS without UNI or PON ports are not supported" },
         some evc0)

/-- Models `EVCMap.__init__` (source lines 58-105): initialise the fields, run
`_decode` inside a try/except that converts any raised exception to
`valid = false`, then register with the circuit when valid and drop the
circuit back-reference otherwise. -/
def EVCMap.mk_evc_map (flow : FlowEntry) (evc? : Option EVC) (is_ingress : Bool) (hnd : Handler) :
    EVCMap × Option EVC :=
  let m0 := EVCMap.init_map evc?.isSome is_ingress
  let d := EVCMap.decode m0 flow evc? hnd
  let m1 :=
    match d.1 with
    | Except.ok b => { d.2.1 with valid := b }
    | Except.error _ => { d.2.1 with valid := false }
  if m1.valid then
    match d.2.2 with
    | some c => (m1, some (c.add_evc_map (m1.name.getD "")))
    | none => (m1, none)
  else
    ({ m1 with evc_attached := false }, d.2.2)

/-- Models `EVCMap._xml_header(operation)`. -/
def EVCMap.xml_header (operation : Option String) : String :=
  "<evc-maps xmlns=\"http://www.adtran.com/ns/yang/adtran-evc-maps\"><evc-map" ++
    (match operation with
     | none => ""
     | some op => " operation=\"" ++ op ++ "\"") ++ ">"

/-- Models `EVCMap._xml_trailer()`. -/
def EVCMap.xml_trailer : String := "</evc-map></evc-maps>"

/-- The create payload built by `install` (source lines 159-174); building it
can raise through `EvcConnection.xml` when no circuit name is present. -/
def EVCMap.install_xml (m : EVCMap) : Except String String :=
  let x1 := EVCMap.xml_header none ++ "<name>" ++ pyStr m.name ++ "</name>"
  let x2 := x1 ++ "<enabled>" ++ (if m.enabled then "true" else "false") ++ "</enabled>"
  let x3 := x2 ++ "<uni>" ++ pyStr m.uni_port ++ "</uni>"
  let x4e :=
    match m.evc_name with
    | some en => Except.ok (x3 ++ "<evc>" ++ en ++ "</evc>")
    | none => (EvcConnection.xml (some m.evc_connection)).map (fun s => x3 ++ s)
  match x4e with
  | Except.error e => Except.error e
  | Except.ok x4 =>
      let x5 :=
        if m.match_untagged then x4 ++ "<match-untagged>True</match-untagged>"
        else
          match m.c_tag with
          | some t => x4 ++ "<ctag>" ++ toString t ++ "</ctag>"
          | none => x4
      Except.ok (x5 ++ EVCMap.xml_trailer)

/-- One fan-out request of `pon_install`: the subscriber unit it addresses and
the channel ids whose entries (named name.onu.gem, with the ce-vlan-id
derived from the channel id by the external unit resolver) it carries. -/
structure UnitRequest where
  onu_id : Nat
  gem_ids : List Nat
deriving DecidableEq, Repr

/-- The per-unit loop of `pon_install` (source lines 224-263): per unit, build
the payload (which can raise through `EvcConnection.xml` before the request
is issued when entries exist but no circuit name is set), issue one request,
and set `installed` and `status` from that response; a raised transport
exception sets `installed = false` and re-raises, ending the loop. -/
def EVCMap.pon_loop (resps : Nat → NcResponse) :
    EVCMap → List (Nat × List Nat) → EVCMap × Except String Bool × List UnitRequest
  | m, [] => (m, Except.ok (m.installed && m.valid), [])
  | m, (onu, gems) :: rest =>
      if gems ≠ [] ∧ m.evc_name = none ∧
          exceptOk (EvcConnection.xml (some m.evc_connection)) = false then
        (m, Except.error "Invalid EvcConnection enumeration", [])
      else
        match resps onu with
        | NcResponse.ok_resp =>
            let r := EVCMap.pon_loop resps { m with installed := true, status_message := some "" } rest
            (r.1, r.2.1, UnitRequest.mk onu gems :: r.2.2)
        | NcResponse.failed err =>
            let r := EVCMap.pon_loop resps { m with installed := false, status_message := some err } rest
            (r.1, r.2.1, UnitRequest.mk onu gems :: r.2.2)
        | NcResponse.exc e =>
            ({ m with installed := false }, Except.error e, [UnitRequest.mk onu gems])

/-- Models `EVCMap.pon_install` (source lines 212-281): guarded by valid and
not-installed, set `installed = true` optimistically, then run the per-unit
loop over the channel table; iterating a missing table raises.  Returns the
final descriptor, the outcome (`.ok` of the returned value or `.error` of a
raised exception), and the issued per-unit requests in order. -/
def EVCMap.pon_install (m : EVCMap) (resps : Nat → NcResponse) :
    EVCMap × Except String Bool × List UnitRequest :=
  if m.valid && !m.installed then
    match m.gem_ids with
    | some table => EVCMap.pon_loop resps { m with installed := true } table
    | none =>
        ({ m with installed := true },
         Except.error "AttributeError: NoneType has no attribute iteritems", [])
  else
    (m, Except.ok (m.installed && m.valid), [])

/-- Models `EVCMap.install` (source lines 153-210).  The channel-table branch starts
`pon_install` without yielding its deferred; it is modelled as running to
completion, with a raised error not propagating out of `install`.  Returns
the descriptor, the outcome, the create payloads sent, and the fan-out
requests sent. -/
def EVCMap.install (m : EVCMap) (resp : NcResponse) (resps : Nat → NcResponse) :
    EVCMap × Except String Bool × List String × List UnitRequest :=
  if m.gem_ids.isSome then
    let pr := EVCMap.pon_install m resps
    (pr.1, Except.ok (pr.1.installed && pr.1.valid), [], pr.2.2)
  else if m.valid && !m.installed then
    match EVCMap.install_xml m with
    | Except.error e => (m, Except.error e, [], [])
    | Except.ok x =>
        if m.needs_acl_support then
          let m1 := { m with installed := true }
          (m1, Except.ok (m1.installed && m1.valid), [], [])
        else
          match resp with
          | NcResponse.ok_resp =>
              let m1 := { m with installed := true, status_message := some "" }
              (m1, Except.ok (m1.installed && m1.valid), [x], [])
          | NcResponse.failed err =>
              let m1 := { m with installed := false, status_message := some err }
              (m1, Except.ok (m1.installed && m1.valid), [x], [])
          | NcResponse.exc e => (m, Except.error e, [x], [])
  else
    (m, Except.ok (m.installed && m.valid), [], [])

/-- Models `EVCMap.remove` (source lines 283-309): no device interaction unless
installed; ACL placeholder flips `installed` without a request; otherwise
`installed` becomes the negation of response success; returns the final
`installed` value, and a raised transport exception propagates. -/
def EVCMap.remove (m : EVCMap) (resp : NcResponse) :
    EVCMap × Except String Bool × List String :=
  if m.installed then
    let x := EVCMap.xml_header (some "remove") ++ "<name>" ++ pyStr m.name ++ "</name>" ++
      EVCMap.xml_trailer
    if m.needs_acl_support then
      let m1 := { m with installed := false }
      (m1, Except.ok m1.installed, [])
    else
      match resp with
      | NcResponse.ok_resp =>
          let m1 := { m with installed := false, status_message := some "" }
          (m1, Except.ok m1.installed, [x])
      | NcResponse.failed err =>
          let m1 := { m with installed := true, status_message := some err }
          (m1, Except.ok m1.installed, [x])
      | NcResponse.exc e => (m, Except.error e, [x])
  else
    (m, Except.ok m.installed, [])

/-- Models `EVCMap.enable` (source lines 311-334): guarded by installed and currently
disabled; `enabled` becomes response success (`self._enabled = results.ok`). -/
def EVCMap.enable (m : EVCMap) (resp : NcResponse) :
    EVCMap × Except String Bool × List String :=
  if m.installed && !m.enabled then
    let x := EVCMap.xml_header none ++ "<name>" ++ pyStr m.name ++ "</name>" ++
      "<enabled>true</enabled>" ++ EVCMap.xml_trailer
    if m.needs_acl_support then
      let m1 := { m with enabled := true }
      (m1, Except.ok (m1.installed && m1.enabled), [])
    else
      match resp with
      | NcResponse.ok_resp =>
          let m1 := { m with enabled := true, status_message := some "" }
          (m1, Except.ok (m1.installed && m1.enabled), [x])
      | NcResponse.failed err =>
          let m1 := { m with enabled := false, status_message := some err }
          (m1, Except.ok (m1.installed && m1.enabled), [x])
      | NcResponse.exc e => (m, Except.error e, [x])
  else
    (m, Except.ok (m.installed && m.enabled), [])

/-- Models `EVCMap.disable` (source lines 336-359): guarded by installed and currently
enabled; `enabled` becomes the negation of response success
(`self._enabled = not results.ok`). -/
def EVCMap.disable (m : EVCMap) (resp : NcResponse) :
    EVCMap × Except String Bool × List String :=
  if m.installed && m.enabled then
    let x := EVCMap.xml_header none ++ "<name>" ++ pyStr m.name ++ "</name>" ++
      "<enabled>false</enabled>" ++ EVCMap.xml_trailer
    if m.needs_acl_support then
      let m1 := { m with enabled := false }
      (m1, Except.ok (m1.installed && !m1.enabled), [])
    else
      match resp with
      | NcResponse.ok_resp =>
          let m1 := { m with enabled := false, status_message := some "" }
          (m1, Except.ok (m1.installed && !m1.enabled), [x])
      | NcResponse.failed err =>
          let m1 := { m with enabled := true, status_message := some err }
          (m1, Except.ok (m1.installed && !m1.enabled), [x])
      | NcResponse.exc e => (m, Except.error e, [x])
  else
    (m, Except.ok (m.installed && !m.enabled), [])

/-- Models `EVCMap.delete` (source lines 361-380): set `valid = false`, attempt
`remove`, convert a raised exception to a false result, and in the finally
block drop the flow back-reference and detach from the circuit
(deregistering from its descriptor collection when attached). -/
def EVCMap.delete (m : EVCMap) (c : EVC) (resp : NcResponse) : EVCMap × EVC × Bool :=
  let m0 := { m with valid := false }
  let r := EVCMap.remove m0 resp
  let succeeded :=
    match r.2.1 with
    | Except.ok b => b
    | Except.error _ => false
  let m1 := { r.1 with flow_present := false }
  if m1.evc_attached then
    ({ m1 with evc_attached := false }, c.remove_evc_map (m1.name.getD ""), succeeded)
  else
    ({ m1 with evc_attached := false }, c, succeeded)

/-- The parsed shape of the query reply consumed by `do_delete` in
`remove_all`: the evc-maps subtree can be absent, present without entries,
a list of entries, or a single entry (a dict of fields). -/
inductive QueryData where
  | no_maps : QueryData
  | maps_no_entry : QueryData
  | entry_list : List (List (String × String)) → QueryData
  | entry_single : List (String × String) → QueryData
deriving DecidableEq, Repr

/-- An rpc reply as consumed by `do_delete`. -/
structure RpcReply where
  ok : Bool
  data : QueryData
deriving DecidableEq, Repr

/-- The name set collected by `do_delete` (source lines 484-499).  The Python
regex test `p.match(name)` is abstracted as the predicate `pat`; a list
reply keeps only entries that have a name matching `pat` (a set, modelled by
deduplication), while a single-entry reply takes the first name field
without applying `pat`. -/
def EVCMap.do_delete_names (pat : String → Bool) : QueryData → List String
  | QueryData.no_maps => []
  | QueryData.maps_no_entry => []
  | QueryData.entry_list es =>
      ((es.filterMap (fun e => e.lookup "name")).filter pat).eraseDups
  | QueryData.entry_single e =>
      match e.lookup "name" with
      | some v => [v]
      | none => []

/-- The consolidated delete payload of `do_delete` (source lines 502-505); as
in the source, the trailer is appended after every name. -/
def EVCMap.delete_xml (names : List String) : String :=
  names.foldl (fun acc n => acc ++ "<name>" ++ n ++ "</name>" ++ EVCMap.xml_trailer)
    (EVCMap.xml_header (some "delete"))

/-- Models `do_delete` (source lines 481-510): on a successful query reply, collect
the names and issue one delete request naming them when at least one was
collected; `some names` is the single issued request, `none` means no
delete request was issued. -/
def EVCMap.do_delete (pat : String → Bool) (reply : RpcReply) : Option (List String) :=
  if reply.ok then
    let names := EVCMap.do_delete_names pat reply.data
    if names.length > 0 then some names else none
  else
    none

/-- The query outcome feeding the `remove_all` callback chain: a reply, or a
raised query failure routed to the `request_failed` errback. -/
inductive QueryOutcome where
  | reply : RpcReply → QueryOutcome
  | query_exc : String → QueryOutcome

/-- Models `EVCMap.remove_all` (source lines 453-515) as the callback pipeline
query -> do_delete -> completion: the delete request issued, if any.  All
failure paths (query failure, delete failure) end in the logging errback
`request_failed` and never propagate, which totality of this function
models. -/
def EVCMap.remove_all (pat : String → Bool) (q : QueryOutcome) : Option (List String) :=
  match q with
  | QueryOutcome.reply r => EVCMap.do_delete pat r
  | QueryOutcome.query_exc _ => none

/-- Exception test on a transport oracle value. -/
def NcResponse.isExc : NcResponse → Bool
  | .exc _ => true
  | .ok_resp => false
  | .failed _ => false

/-- A descriptor is registered with a circuit when its name is a key of the
circuit descriptor collection. -/
def registered (m : EVCMap) (c : EVC) : Prop :=
  ∃ n, m.name = some n ∧ n ∈ c.evc_maps

/-- The registration invariant of the spec: a descriptor is registered with
its circuit exactly when it is valid, and a descriptor holding no circuit
back-reference is not registered. -/
def RegInv (m : EVCMap) (c : EVC) : Prop :=
  (m.valid = true ↔ registered m c) ∧ (m.evc_attached = false → ¬ registered m c)

/-- One lifecycle operation on a descriptor and its circuit, at whole-operation
granularity, for an arbitrary transport oracle. -/
inductive LifecycleStep : EVCMap × EVC → EVCMap × EVC → Prop where
  | install_step (m : EVCMap) (c : EVC) (resp : NcResponse) (resps : Nat → NcResponse) :
      LifecycleStep (m, c) ((EVCMap.install m resp resps).1, c)
  | pon_install_step (m : EVCMap) (c : EVC) (resps : Nat → NcResponse) :
      LifecycleStep (m, c) ((EVCMap.pon_install m resps).1, c)
  | remove_step (m : EVCMap) (c : EVC) (resp : NcResponse) :
      LifecycleStep (m, c) ((EVCMap.remove m resp).1, c)
  | enable_step (m : EVCMap) (c : EVC) (resp : NcResponse) :
      LifecycleStep (m, c) ((EVCMap.enable m resp).1, c)
  | disable_step (m : EVCMap) (c : EVC) (resp : NcResponse) :
      LifecycleStep (m, c) ((EVCMap.disable m resp).1, c)
  | delete_step (m : EVCMap) (c : EVC) (resp : NcResponse) :
      LifecycleStep (m, c) ((EVCMap.delete m c resp).1, (EVCMap.delete m c resp).2.1)

/-- Fixture: a topology where every port is a UNI port. -/
def uni_handler : Handler where
  is_pon_port := fun _ => false
  is_uni_port := fun _ => true
  get_port_name := fun p => "uni-" ++ toString p
  get_southbound_port := fun _ => none

/-- Fixture: a topology where every port is a PON port with two subscriber
units, unit 0 owning channel 1 and unit 1 owning channel 2. -/
def pon_handler : Handler where
  is_pon_port := fun _ => true
  is_uni_port := fun _ => false
  get_port_name := fun p => "pon-" ++ toString p
  get_southbound_port := fun _ => some { gem_ids := fun _ => [(0, [1]), (1, [2])] }

/-- Fixture: a circuit with an empty descriptor collection and pop count 0. -/
def evc_a : EVC where
  name := "evc-a"
  flow_entry := { pop_vlan := 0 }
  ce_vlan_preservation := true
  men_to_uni_tag_manipulation := none
  switching_method := none
  stpid := none
  evc_maps := []

/-- Fixture: the same circuit with pop count 1. -/
def pop1_evc : EVC := { evc_a with flow_entry := { pop_vlan := 1 } }

/-- Fixture: an EAPOL flow (so the descriptor needs ACL support) on port 5. -/
def acl_flow : FlowEntry where
  in_port := 5
  flow_id := 7
  eth_type := some FlowEntry.EtherType_EAPOL
  ip_protocol := none
  ipv4_dst := none
  udp_dst := none
  udp_src := none
  inner_vid := none
  push_vlan_id := []
  push_vlan_tpid := []

/-- Fixture: a plain flow (no ACL fields, no pushed tags) on port 9. -/
def pon_flow : FlowEntry where
  in_port := 9
  flow_id := 3
  eth_type := none
  ip_protocol := none
  ipv4_dst := none
  udp_dst := none
  udp_src := none
  inner_vid := none
  push_vlan_id := []
  push_vlan_tpid := []

/-- Fixture: an IPv4/UDP flow exercising all ACL fields. -/
def udp_flow : FlowEntry where
  in_port := 5
  flow_id := 11
  eth_type := some FlowEntry.EtherType_IPv4
  ip_protocol := some FlowEntry.IpProtocol_UDP
  ipv4_dst := some 0x0a000001
  udp_dst := some 67
  udp_src := some 68
  inner_vid := none
  push_vlan_id := []
  push_vlan_tpid := []

/-- Fixture: a flow that pushes two VLAN tags. -/
def twopush_flow : FlowEntry :=
  { pon_flow with push_vlan_id := [100, 200], push_vlan_tpid := [0x8100, 0x8100] }

/-- Fixture: the decoded ACL descriptor for `acl_flow` on the UNI topology. -/
def acl_map : EVCMap := (EVCMap.mk_evc_map acl_flow (some evc_a) true uni_handler).1

/-- Fixture: the circuit after `acl_map` registered with it. -/
def acl_circuit : EVC :=
  ((EVCMap.mk_evc_map acl_flow (some evc_a) true uni_handler).2).getD evc_a

/-- Fixture: the decoded fan-out descriptor for `pon_flow` on the PON topology
(channel table unit 0 -> [1], unit 1 -> [2]). -/
def pon_map : EVCMap := (EVCMap.mk_evc_map pon_flow (some evc_a) true pon_handler).1

/-- Fixture: transport oracle where unit 0 answers with a failed response and
every other unit with success. -/
def c2_resps : Nat → NcResponse :=
  fun onu => if onu = 0 then NcResponse.failed "err" else NcResponse.ok_resp

/-- Fixture: the name-matching predicate of the reserved system prefix
(written over the character list so that it evaluates by `decide`). -/
def c3_pattern (s : String) : Bool := s.data.take 7 == "VOLTHA-".data

/-- Fixture: a successful query reply whose subtree holds a single (non-list)
entry with a name that does not match the reserved prefix. -/
def c3_reply : RpcReply where
  ok := true
  data := QueryData.entry_single [("name", "NOT-A-MATCH")]
/-- Helper: `remove` never changes validity, identity or back-references. -/
theorem remove_fields (m : EVCMap) (resp : NcResponse) :
    (EVCMap.remove m resp).1.valid = m.valid ∧
    (EVCMap.remove m resp).1.name = m.name ∧
    (EVCMap.remove m resp).1.evc_attached = m.evc_attached ∧
    (EVCMap.remove m resp).1.flow_present = m.flow_present ∧
    (EVCMap.remove m resp).1.evc_name = m.evc_name := by
  unfold EVCMap.remove
  split_ifs <;> cases resp <;> simp

/-- Helper: the fan-out loop only updates `installed` and `status`. -/
theorem pon_loop_fields (resps : Nat → NcResponse) (table : List (Nat × List Nat)) (m : EVCMap) :
    (EVCMap.pon_loop resps m table).1.valid = m.valid ∧
    (EVCMap.pon_loop resps m table).1.name = m.name ∧
    (EVCMap.pon_loop resps m table).1.evc_attached = m.evc_attached ∧
    (EVCMap.pon_loop resps m table).1.flow_present = m.flow_present ∧
    (EVCMap.pon_loop resps m table).1.evc_name = m.evc_name := by
  induction table generalizing m with
  | nil => simp [EVCMap.pon_loop]
  | cons u rest ih =>
      rcases u with ⟨onu, gems⟩
      simp only [EVCMap.pon_loop]
      split_ifs with hguard
      · simp
      · cases hr : resps onu <;> simp [hr, ih]

/-- Helper: `pon_install` only updates `installed` and `status`. -/
theorem pon_install_fields (m : EVCMap) (resps : Nat → NcResponse) :
    (EVCMap.pon_install m resps).1.valid = m.valid ∧
    (EVCMap.pon_install m resps).1.name = m.name ∧
    (EVCMap.pon_install m resps).1.evc_attached = m.evc_attached ∧
    (EVCMap.pon_install m resps).1.flow_present = m.flow_present ∧
    (EVCMap.pon_install m resps).1.evc_name = m.evc_name := by
  unfold EVCMap.pon_install
  split_ifs with h1
  · split
    · next table heq =>
        have h := pon_loop_fields resps table { m with installed := true }
        simp only at h
        exact h
    · simp
  · simp

/-- Helper: `install` only updates `installed` and `status`. -/
theorem install_fields (m : EVCMap) (resp : NcResponse) (resps : Nat → NcResponse) :
    (EVCMap.install m resp resps).1.valid = m.valid ∧
    (EVCMap.install m resp resps).1.name = m.name ∧
    (EVCMap.install m resp resps).1.evc_attached = m.evc_attached ∧
    (EVCMap.install m resp resps).1.flow_present = m.flow_present ∧
    (EVCMap.install m resp resps).1.evc_name = m.evc_name := by
  unfold EVCMap.install
  by_cases h1 : m.gem_ids.isSome = true
  · rw [if_pos h1]
    exact pon_install_fields m resps
  · rw [if_neg h1]
    by_cases h2 : (m.valid && !m.installed) = true
    · rw [if_pos h2]
      split
      · simp
      · by_cases h3 : m.needs_acl_support = true
        · rw [if_pos h3]; simp
        · rw [if_neg h3]; cases resp <;> simp
    · rw [if_neg h2]; simp

/-- Helper: `enable` only updates `enabled` and `status`. -/
theorem enable_fields (m : EVCMap) (resp : NcResponse) :
    (EVCMap.enable m resp).1.valid = m.valid ∧
    (EVCMap.enable m resp).1.name = m.name ∧
    (EVCMap.enable m resp).1.evc_attached = m.evc_attached ∧
    (EVCMap.enable m resp).1.flow_present = m.flow_present := by
  unfold EVCMap.enable
  split_ifs <;> cases resp <;> simp

/-- Helper: `disable` only updates `enabled` and `status`. -/
theorem disable_fields (m : EVCMap) (resp : NcResponse) :
    (EVCMap.disable m resp).1.valid = m.valid ∧
    (EVCMap.disable m resp).1.name = m.name ∧
    (EVCMap.disable m resp).1.evc_attached = m.evc_attached ∧
    (EVCMap.disable m resp).1.flow_present = m.flow_present := by
  unfold EVCMap.disable
  split_ifs <;> cases resp <;> simp

/-- Helper: what `delete` does to the descriptor, the circuit and the
returned outcome, expressed through `remove`. -/
theorem delete_fields (m : EVCMap) (c : EVC) (resp : NcResponse) :
    (EVCMap.delete m c resp).1.valid = false ∧
    (EVCMap.delete m c resp).1.evc_attached = false ∧
    (EVCMap.delete m c resp).1.flow_present = false ∧
    (EVCMap.delete m c resp).1.name = m.name ∧
    (EVCMap.delete m c resp).2.1 =
      (if m.evc_attached = true then c.remove_evc_map (m.name.getD "") else c) ∧
    (EVCMap.delete m c resp).2.2 =
      (match (EVCMap.remove { m with valid := false } resp).2.1 with
       | Except.ok b => b
       | Except.error _ => false) := by
  obtain ⟨hv, hn, ha, hf, he⟩ := remove_fields { m with valid := false } resp
  simp only at hv hn ha hf he
  unfold EVCMap.delete
  split_ifs with hat <;> simp_all

/-- C1: `delete` marks the descriptor invalid immediately, drops the flow and
circuit back-references, and detaches from the circuit regardless of the
remove outcome (success, failed response, raised exception, or never
installed): afterwards the circuit descriptor collection no longer holds
the descriptor name.  It returns exactly what `remove` returned, or false
when `remove` raised, and itself never raises (it is a total function). -/
theorem delete_always_detaches (m : EVCMap) (c : EVC) (resp : NcResponse)
    (hreg : m.evc_attached = false → ∀ n, m.name = some n → n ∉ c.evc_maps) :
    (EVCMap.delete m c resp).1.valid = false ∧
    (EVCMap.delete m c resp).1.evc_attached = false ∧
    (EVCMap.delete m c resp).1.flow_present = false ∧
    (∀ n, m.name = some n → n ∉ (EVCMap.delete m c resp).2.1.evc_maps) ∧
    (∀ b, (EVCMap.remove { m with valid := false } resp).2.1 = Except.ok b →
      (EVCMap.delete m c resp).2.2 = b) ∧
    (∀ e, (EVCMap.remove { m with valid := false } resp).2.1 = Except.error e →
      (EVCMap.delete m c resp).2.2 = false) := by
  obtain ⟨h1, h2, h3, h4, h5, h6⟩ := delete_fields m c resp
  refine ⟨h1, h2, h3, ?_, ?_, ?_⟩
  · intro n hn
    rw [h5]
    split_ifs with hat
    · rw [hn]
      simp [EVC.remove_evc_map, List.mem_filter]
    · exact hreg (by simpa using hat) n hn
  · intro b hb
    rw [h6, hb]
  · intro e hee
    rw [h6, hee]

/-- Witness for C1 at the concrete ACL descriptor registered with its circuit. -/
theorem delete_always_detaches_witness :
    (EVCMap.delete acl_map acl_circuit NcResponse.ok_resp).1.valid = false ∧
    "VOLTHA-5-7" ∉ (EVCMap.delete acl_map acl_circuit NcResponse.ok_resp).2.1.evc_maps := by
  have h := delete_always_detaches acl_map acl_circuit NcResponse.ok_resp
    (by
      intro hfalse
      have htrue : acl_map.evc_attached = true := by decide
      rw [htrue] at hfalse
      cases hfalse)
  exact ⟨h.1, h.2.2.2.1 "VOLTHA-5-7" (by decide)⟩

/-- C8: in `EvcConnection.xml`, the branch returning the discard tag is
unreachable for every input; a `none` argument (defaulting to
`NO_EVC_CONNECTION`) and `NO_EVC_CONNECTION` itself raise `ValueError`
instead of rendering their documented tag; and `<no-evc-connection/>` is
returned exactly when the input is `DISCARD`. -/
theorem evc_connection_xml_cases :
    (∀ v : Option EvcConnection, EvcConnection.xml v ≠ Except.ok "discard/") ∧
    EvcConnection.xml none = Except.error "Invalid EvcConnection enumeration" ∧
    EvcConnection.xml (some EvcConnection.NO_EVC_CONNECTION) =
      Except.error "Invalid EvcConnection enumeration" ∧
    (∀ v : Option EvcConnection,
      EvcConnection.xml v = Except.ok "<no-evc-connection/>" ↔ v = some EvcConnection.DISCARD) := by
  refine ⟨?_, rfl, rfl, ?_⟩
  · intro v
    rcases v with _ | w
    · simp [EvcConnection.xml, EvcConnection.DEFAULT]
    · cases w <;> simp [EvcConnection.xml, EvcConnection.DEFAULT]
  · intro v
    rcases v with _ | w
    · simp [EvcConnection.xml, EvcConnection.DEFAULT]
    · cases w <;> simp [EvcConnection.xml, EvcConnection.DEFAULT]

/-- C9: for an installed, non-ACL descriptor, `enable` sets the enabled flag
to the response success (true on success, false on a failed response) while
`disable` sets it to the negation of response success (false on success,
true - kept - on a failed response). -/
theorem enable_disable_flag_asymmetry (m : EVCMap) (err : String)
    (hinst : m.installed = true) (hacl : m.needs_acl_support = false) :
    (m.enabled = false →
      (EVCMap.enable m NcResponse.ok_resp).1.enabled = true ∧
      (EVCMap.enable m (NcResponse.failed err)).1.enabled = false) ∧
    (m.enabled = true →
      (EVCMap.disable m NcResponse.ok_resp).1.enabled = false ∧
      (EVCMap.disable m (NcResponse.failed err)).1.enabled = true) := by
  constructor <;> intro he <;>
    simp [EVCMap.enable, EVCMap.disable, hinst, hacl, he]

/-- Witness for C9 at a concrete installed descriptor. -/
theorem enable_disable_flag_asymmetry_witness :
    (EVCMap.disable { pon_map with installed := true } NcResponse.ok_resp).1.enabled = false :=
  ((enable_disable_flag_asymmetry { pon_map with installed := true } "err"
    (by decide) (by decide)).2 (by decide)).1

/-- C3, code-bug evidence: on a successful query reply holding a single
(non-list) entry whose name does not match the pattern, `do_delete` still
issues a delete request naming that entry - the single-entry branch never
applies the pattern - whereas the same entry arriving in a list yields no
delete request, as the documentation of `remove_all` describes. -/
theorem do_delete_single_entry_skips_pattern :
    EVCMap.do_delete c3_pattern c3_reply = some ["NOT-A-MATCH"] ∧
    c3_pattern "NOT-A-MATCH" = false ∧
    EVCMap.do_delete c3_pattern
      { ok := true, data := QueryData.entry_list [[("name", "NOT-A-MATCH")]] } = none := by
  decide

/-- C2 counterexample: with two subscriber units where unit 0 answers with a
failed response and unit 1 with success, `pon_install` ends with
`installed = true`, not the AND of the per-unit results (which is false);
both unit requests are issued. -/
theorem pon_install_last_result_counterexample :
    (EVCMap.pon_install pon_map c2_resps).1.installed = true ∧
    c2_resps 0 = NcResponse.failed "err" ∧
    (EVCMap.pon_install pon_map c2_resps).2.2 =
      [UnitRequest.mk 0 [1], UnitRequest.mk 1 [2]] := by
  decide

/-- C4 counterexample: on a valid, not-installed ACL descriptor without a
channel table, `install` sets `installed = true` and issues no request, but
leaves `status` unset (`none`) instead of setting it to the empty string. -/
theorem install_acl_status_counterexample :
    acl_map.valid = true ∧ acl_map.installed = false ∧ acl_map.gem_ids = none ∧
    acl_map.needs_acl_support = true ∧
    (EVCMap.install acl_map NcResponse.ok_resp (fun _ => NcResponse.ok_resp)).1.installed = true ∧
    (EVCMap.install acl_map NcResponse.ok_resp (fun _ => NcResponse.ok_resp)).2.2.1 = [] ∧
    (EVCMap.install acl_map NcResponse.ok_resp (fun _ => NcResponse.ok_resp)).2.2.2 = [] ∧
    (EVCMap.install acl_map NcResponse.ok_resp (fun _ => NcResponse.ok_resp)).1.status_message ≠
      some "" := by
  decide

/-- C4 (amended): for a valid, not-yet-installed descriptor without a channel
table whose `needs_acl_support` is true (and carrying its circuit name, as
every valid descriptor does), `install` sets `installed = true`, issues zero
transport requests, returns true, and leaves `status` unchanged (it is not
set to the empty string). -/
theorem install_acl_placeholder (m : EVCMap) (resp : NcResponse) (resps : Nat → NcResponse)
    (hv : m.valid = true) (hni : m.installed = false) (hg : m.gem_ids = none)
    (hacl : m.needs_acl_support = true) (hen : m.evc_name.isSome = true) :
    (EVCMap.install m resp resps).1.installed = true ∧
    (EVCMap.install m resp resps).1.status_message = m.status_message ∧
    (EVCMap.install m resp resps).2.2.1 = [] ∧
    (EVCMap.install m resp resps).2.2.2 = [] ∧
    (EVCMap.install m resp resps).2.1 = Except.ok true := by
  obtain ⟨en, hen2⟩ := Option.isSome_iff_exists.mp hen
  have hxml : ∃ x, EVCMap.install_xml m = Except.ok x := by
    unfold EVCMap.install_xml
    rw [hen2]
    simp
  obtain ⟨x, hx⟩ := hxml
  unfold EVCMap.install
  rw [hg]
  simp only [Option.isSome_none, Bool.false_eq_true, if_false]
  rw [if_pos (by simp [hv, hni]), hx]
  simp [hacl, hv]

/-- Witness for C4 at the concrete ACL descriptor. -/
theorem install_acl_placeholder_witness :
    (EVCMap.install acl_map NcResponse.ok_resp (fun _ => NcResponse.ok_resp)).1.installed = true ∧
    (EVCMap.install acl_map NcResponse.ok_resp (fun _ => NcResponse.ok_resp)).1.status_message =
      acl_map.status_message :=
  ⟨(install_acl_placeholder acl_map NcResponse.ok_resp (fun _ => NcResponse.ok_resp)
      (by decide) (by decide) (by decide) (by decide) (by decide)).1,
   (install_acl_placeholder acl_map NcResponse.ok_resp (fun _ => NcResponse.ok_resp)
      (by decide) (by decide) (by decide) (by decide) (by decide)).2.1⟩

/-- Helper: with two pushed tags and pop count 1, the decoder either returns
false early or raises the not-implemented error. -/
theorem decode_two_push_result (m0 : EVCMap) (flow : FlowEntry) (evc : EVC) (hnd : Handler)
    (hlen : flow.push_vlan_id.length = 2) (hpop : evc.flow_entry.pop_vlan = 1) :
    (EVCMap.decode m0 flow (some evc) hnd).1 = Except.ok false ∨
    (EVCMap.decode m0 flow (some evc) hnd).1 =
      Except.error "NotImplementedError: TODO: Not supported yet" := by
  unfold EVCMap.decode
  by_cases hp : (hnd.is_pon_port flow.in_port || hnd.is_uni_port flow.in_port) = true
  · simp [hp, hlen, hpop]
  · rw [Bool.not_eq_true] at hp
    simp [hp]

theorem decode_two_push_evc (m0 : EVCMap) (flow : FlowEntry) (evc : EVC) (hnd : Handler)
    (hp : (hnd.is_pon_port flow.in_port || hnd.is_uni_port flow.in_port) = true)
    (hlen : flow.push_vlan_id.length = 2) (hpop : evc.flow_entry.pop_vlan = 1) :
    (EVCMap.decode m0 flow (some evc) hnd).1 =
      Except.error "NotImplementedError: TODO: Not supported yet" ∧
    (EVCMap.decode m0 flow (some evc) hnd).2.2 =
      some { evc with
        ce_vlan_preservation := false,
        men_to_uni_tag_manipulation := some Men2UniManipulation.POP_OUT_TAG_ONLY,
        switching_method := some SwitchingMethod.DOUBLE_TAGGED } := by
  unfold EVCMap.decode
  simp [hp, hlen, hpop]

/-- Helper: when the decoder raises, the constructor catches, yields an
invalid unattached descriptor, and passes the mutated circuit through. -/
theorem decode_error_invalid (flow : FlowEntry) (evc? : Option EVC) (ing : Bool) (hnd : Handler)
    (e : String)
    (herr : (EVCMap.decode (EVCMap.init_map evc?.isSome ing) flow evc? hnd).1 = Except.error e) :
    (EVCMap.mk_evc_map flow evc? ing hnd).1.valid = false ∧
    (EVCMap.mk_evc_map flow evc? ing hnd).1.evc_attached = false ∧
    (EVCMap.mk_evc_map flow evc? ing hnd).2 =
      (EVCMap.decode (EVCMap.init_map evc?.isSome ing) flow evc? hnd).2.2 := by
  unfold EVCMap.mk_evc_map
  simp [herr]

/-- C5: a flow with exactly two pushed tags paired with a circuit whose flow
entry pops one tag always constructs a descriptor with `valid = false`; and
in general any raised decode failure is caught by the constructor and
converted to `valid = false` - construction never raises (the constructor
is a total function). -/
theorem two_push_one_pop_invalid :
    (∀ (flow : FlowEntry) (evc : EVC) (ing : Bool) (hnd : Handler),
      flow.push_vlan_id.length = 2 → evc.flow_entry.pop_vlan = 1 →
      (EVCMap.mk_evc_map flow (some evc) ing hnd).1.valid = false) ∧
    (∀ (flow : FlowEntry) (evc? : Option EVC) (ing : Bool) (hnd : Handler) (e : String),
      (EVCMap.decode (EVCMap.init_map evc?.isSome ing) flow evc? hnd).1 = Except.error e →
      (EVCMap.mk_evc_map flow evc? ing hnd).1.valid = false) := by
  constructor
  · intro flow evc ing hnd hlen hpop
    rcases decode_two_push_result (EVCMap.init_map true ing) flow evc hnd hlen hpop
      with h | h
    · unfold EVCMap.mk_evc_map
      simp [h]
    · exact (decode_error_invalid flow (some evc) ing hnd _ h).1
  · intro flow evc2 ing hnd e herr
    exact (decode_error_invalid flow evc2 ing hnd e herr).1

/-- Witness for C5 at a concrete two-push flow and pop-1 circuit. -/
theorem two_push_one_pop_invalid_witness :
    (EVCMap.mk_evc_map twopush_flow (some pop1_evc) true uni_handler).1.valid = false :=
  two_push_one_pop_invalid.1 twopush_flow pop1_evc true uni_handler (by decide) (by decide)

/-- C10: decode failure is not atomic for the circuit: on the
two-pushed-tags/one-pop path of a PON- or UNI-classified flow, construction
yields an invalid, unattached descriptor, yet the returned circuit has its
CE-VLAN preservation forced off and its tag manipulation and switching
method set to strip-outer/double-tagged; its descriptor collection is
unchanged (the descriptor was never registered). -/
theorem decode_circuit_side_effects (flow : FlowEntry) (evc : EVC) (ing : Bool) (hnd : Handler)
    (hp : (hnd.is_pon_port flow.in_port || hnd.is_uni_port flow.in_port) = true)
    (hlen : flow.push_vlan_id.length = 2) (hpop : evc.flow_entry.pop_vlan = 1) :
    (EVCMap.mk_evc_map flow (some evc) ing hnd).1.valid = false ∧
    (EVCMap.mk_evc_map flow (some evc) ing hnd).1.evc_attached = false ∧
    (EVCMap.mk_evc_map flow (some evc) ing hnd).2 =
      some { evc with
        ce_vlan_preservation := false,
        men_to_uni_tag_manipulation := some Men2UniManipulation.POP_OUT_TAG_ONLY,
        switching_method := some SwitchingMethod.DOUBLE_TAGGED } ∧
    ((EVCMap.mk_evc_map flow (some evc) ing hnd).2.map EVC.evc_maps) = some evc.evc_maps := by
  obtain ⟨he, hevc⟩ :=
    decode_two_push_evc (EVCMap.init_map true ing) flow evc hnd hp hlen hpop
  obtain ⟨h1, h2, h3⟩ := decode_error_invalid flow (some evc) ing hnd _ he
  simp only [Option.isSome_some] at h3
  refine ⟨h1, h2, ?_, ?_⟩
  · rw [h3, hevc]
  · rw [h3, hevc]
    rfl

/-- Witness for C10 at a concrete two-push flow on a PON topology. -/
theorem decode_circuit_side_effects_witness :
    (EVCMap.mk_evc_map twopush_flow (some pop1_evc) true pon_handler).2 =
      some { pop1_evc with
        ce_vlan_preservation := false,
        men_to_uni_tag_manipulation := some Men2UniManipulation.POP_OUT_TAG_ONLY,
        switching_method := some SwitchingMethod.DOUBLE_TAGGED } :=
  (decode_circuit_side_effects twopush_flow pop1_evc true pon_handler
    (by decide) (by decide) (by decide)).2.2.1

theorem decode_acl_fields (m0 : EVCMap) (flow : FlowEntry) (evc : EVC) (hnd : Handler)
    (hip : m0.ip_protocol = none) (hi4 : m0.ipv4_dst = none)
    (hud : m0.udp_dst = none) (hus : m0.udp_src = none)
    (hp : (hnd.is_pon_port flow.in_port || hnd.is_uni_port flow.in_port) = true) :
    (EVCMap.decode m0 flow (some evc) hnd).2.1.eth_type = flow.eth_type ∧
    (EVCMap.decode m0 flow (some evc) hnd).2.1.ip_protocol =
      (if flow.eth_type = some FlowEntry.EtherType_IPv4 then flow.ip_protocol else none) ∧
    (EVCMap.decode m0 flow (some evc) hnd).2.1.ipv4_dst =
      (if flow.eth_type = some FlowEntry.EtherType_IPv4 then flow.ipv4_dst else none) ∧
    (EVCMap.decode m0 flow (some evc) hnd).2.1.udp_dst =
      (if flow.eth_type = some FlowEntry.EtherType_IPv4 ∧
          flow.ip_protocol = some FlowEntry.IpProtocol_UDP then flow.udp_dst else none) ∧
    (EVCMap.decode m0 flow (some evc) hnd).2.1.udp_src =
      (if flow.eth_type = some FlowEntry.EtherType_IPv4 ∧
          flow.ip_protocol = some FlowEntry.IpProtocol_UDP then flow.udp_src else none) := by
  unfold EVCMap.decode
  rcases hsb : hnd.get_southbound_port flow.in_port with _ | pp <;>
    by_cases h4 : flow.eth_type = some FlowEntry.EtherType_IPv4 <;>
      by_cases h5 : flow.ip_protocol = some FlowEntry.IpProtocol_UDP <;>
        simp [hp, hsb, h4, h5] <;>
          split_ifs <;>
            (try split) <;>
              simp_all

/-- Helper: the derived ACL predicate is exactly the non-nullity of one of
the five ACL fields. -/
theorem needs_acl_support_iff (m : EVCMap) :
    m.needs_acl_support = true ↔
      (m.eth_type ≠ none ∨ m.ip_protocol ≠ none ∨ m.ipv4_dst ≠ none ∨
       m.udp_dst ≠ none ∨ m.udp_src ≠ none) := by
  simp [EVCMap.needs_acl_support, Option.isSome_iff_ne_none]
  tauto

/-- C7: after any successful decode, the ether-type is copied verbatim and
`needs_acl_support` is true iff one of the five ACL fields is non-null;
IP protocol and destination IPv4 are populated only when the ether-type is
IPv4 (and then carry the flow values), and the UDP ports only when,
additionally, the IP protocol is UDP. -/
theorem acl_support_fields (flow : FlowEntry) (evc? : Option EVC) (ing : Bool) (hnd : Handler)
    (hok : (EVCMap.decode (EVCMap.init_map evc?.isSome ing) flow evc? hnd).1 = Except.ok true) :
    (EVCMap.decode (EVCMap.init_map evc?.isSome ing) flow evc? hnd).2.1.eth_type = flow.eth_type ∧
    ((EVCMap.decode (EVCMap.init_map evc?.isSome ing) flow evc? hnd).2.1.needs_acl_support = true ↔
      ((EVCMap.decode (EVCMap.init_map evc?.isSome ing) flow evc? hnd).2.1.eth_type ≠ none ∨
       (EVCMap.decode (EVCMap.init_map evc?.isSome ing) flow evc? hnd).2.1.ip_protocol ≠ none ∨
       (EVCMap.decode (EVCMap.init_map evc?.isSome ing) flow evc? hnd).2.1.ipv4_dst ≠ none ∨
       (EVCMap.decode (EVCMap.init_map evc?.isSome ing) flow evc? hnd).2.1.udp_dst ≠ none ∨
       (EVCMap.decode (EVCMap.init_map evc?.isSome ing) flow evc? hnd).2.1.udp_src ≠ none)) ∧
    (flow.eth_type ≠ some FlowEntry.EtherType_IPv4 →
      (EVCMap.decode (EVCMap.init_map evc?.isSome ing) flow evc? hnd).2.1.ip_protocol = none ∧
      (EVCMap.decode (EVCMap.init_map evc?.isSome ing) flow evc? hnd).2.1.ipv4_dst = none) ∧
    (flow.eth_type = some FlowEntry.EtherType_IPv4 →
      (EVCMap.decode (EVCMap.init_map evc?.isSome ing) flow evc? hnd).2.1.ip_protocol =
        flow.ip_protocol ∧
      (EVCMap.decode (EVCMap.init_map evc?.isSome ing) flow evc? hnd).2.1.ipv4_dst =
        flow.ipv4_dst) ∧
    ((flow.eth_type ≠ some FlowEntry.EtherType_IPv4 ∨
        flow.ip_protocol ≠ some FlowEntry.IpProtocol_UDP) →
      (EVCMap.decode (EVCMap.init_map evc?.isSome ing) flow evc? hnd).2.1.udp_dst = none ∧
      (EVCMap.decode (EVCMap.init_map evc?.isSome ing) flow evc? hnd).2.1.udp_src = none) ∧
    ((flow.eth_type = some FlowEntry.EtherType_IPv4 ∧
        flow.ip_protocol = some FlowEntry.IpProtocol_UDP) →
      (EVCMap.decode (EVCMap.init_map evc?.isSome ing) flow evc? hnd).2.1.udp_dst =
        flow.udp_dst ∧
      (EVCMap.decode (EVCMap.init_map evc?.isSome ing) flow evc? hnd).2.1.udp_src =
        flow.udp_src) := by
  cases evc? with
  | none =>
      exfalso
      unfold EVCMap.decode at hok
      simp at hok
  | some evc =>
      by_cases hp : (hnd.is_pon_port flow.in_port || hnd.is_uni_port flow.in_port) = true
      · obtain ⟨f1, f2, f3, f4, f5⟩ :=
          decode_acl_fields (EVCMap.init_map (some evc).isSome ing) flow evc hnd
            rfl rfl rfl rfl hp
        refine ⟨f1, needs_acl_support_iff _, ?_, ?_, ?_, ?_⟩
        · intro hne
          rw [f2, f3]
          simp [hne]
        · intro heq
          rw [f2, f3]
          simp [heq]
        · intro hor
          rw [f4, f5]
          rcases hor with h | h <;> simp [h]
        · intro hand
          rw [f4, f5]
          simp [hand]
      · exfalso
        unfold EVCMap.decode at hok
        rw [Bool.not_eq_true] at hp
        simp [hp] at hok

/-- Witness for C7 at a concrete IPv4/UDP flow. -/
theorem acl_support_fields_witness :
    (EVCMap.decode (EVCMap.init_map (some evc_a).isSome true) udp_flow (some evc_a)
      uni_handler).2.1.eth_type = udp_flow.eth_type :=
  (acl_support_fields udp_flow (some evc_a) true uni_handler rfl).1

/-- Helper: an exception-free fan-out loop issues one request per unit, in
order, each carrying exactly that unit channels, returns normally, and
leaves `installed` equal to the last unit response success. -/
theorem pon_loop_no_exc (resps : Nat → NcResponse) (table : List (Nat × List Nat)) (m : EVCMap)
    (hen : m.evc_name.isSome = true)
    (hne : ∀ p ∈ table, (resps p.1).isExc = false) :
    (EVCMap.pon_loop resps m table).2.2 = table.map (fun p => UnitRequest.mk p.1 p.2) ∧
    (EVCMap.pon_loop resps m table).2.1 =
      Except.ok ((EVCMap.pon_loop resps m table).1.installed &&
        (EVCMap.pon_loop resps m table).1.valid) ∧
    (∀ u, table.getLast? = some u →
      (EVCMap.pon_loop resps m table).1.installed = (resps u.1).respOk) := by
  induction table generalizing m with
  | nil =>
      refine ⟨rfl, rfl, ?_⟩
      intro u hu
      simp at hu
  | cons p rest ih =>
      rcases p with ⟨onu, gems⟩
      have hguard : ¬ (gems ≠ [] ∧ m.evc_name = none ∧
          exceptOk (EvcConnection.xml (some m.evc_connection)) = false) := by
        rintro ⟨-, h2, -⟩
        rw [h2] at hen
        simp at hen
      have hne0 : (resps onu).isExc = false := hne (onu, gems) (by simp)
      simp only [EVCMap.pon_loop, if_neg hguard]
      cases hr : resps onu with
      | exc e =>
          rw [hr] at hne0
          simp [NcResponse.isExc] at hne0
      | ok_resp =>
          obtain ⟨ih1, ih2, ih3⟩ :=
            ih { m with installed := true, status_message := some "" } (by simpa using hen)
              (fun q hq => hne q (by simp [hq]))
          cases rest with
          | nil =>
              refine ⟨by simp [EVCMap.pon_loop], by simp [EVCMap.pon_loop], ?_⟩
              intro u hu
              simp at hu
              subst hu
              simp [EVCMap.pon_loop, hr, NcResponse.respOk]
          | cons q t =>
              refine ⟨by simpa using ih1, by simpa using ih2, ?_⟩
              intro u hu
              rw [List.getLast?_cons_cons] at hu
              simpa using ih3 u hu
      | failed err =>
          obtain ⟨ih1, ih2, ih3⟩ :=
            ih { m with installed := false, status_message := some err } (by simpa using hen)
              (fun q hq => hne q (by simp [hq]))
          cases rest with
          | nil =>
              refine ⟨by simp [EVCMap.pon_loop], by simp [EVCMap.pon_loop], ?_⟩
              intro u hu
              simp at hu
              subst hu
              simp [EVCMap.pon_loop, hr, NcResponse.respOk]
          | cons q t =>
              refine ⟨by simpa using ih1, by simpa using ih2, ?_⟩
              intro u hu
              rw [List.getLast?_cons_cons] at hu
              simpa using ih3 u hu

/-- Helper: whenever the fan-out loop re-raises, it has set
`installed = false` first. -/
theorem pon_loop_error_installed (resps : Nat → NcResponse) (table : List (Nat × List Nat))
    (m : EVCMap) (hen : m.evc_name.isSome = true) :
    ∀ e, (EVCMap.pon_loop resps m table).2.1 = Except.error e →
      (EVCMap.pon_loop resps m table).1.installed = false := by
  induction table generalizing m with
  | nil =>
      intro e he
      simp [EVCMap.pon_loop] at he
  | cons p rest ih =>
      rcases p with ⟨onu, gems⟩
      intro e he
      have hguard : ¬ (gems ≠ [] ∧ m.evc_name = none ∧
          exceptOk (EvcConnection.xml (some m.evc_connection)) = false) := by
        rintro ⟨-, h2, -⟩
        rw [h2] at hen
        simp at hen
      simp only [EVCMap.pon_loop, if_neg hguard] at he ⊢
      cases hr : resps onu with
      | ok_resp =>
          rw [hr] at he
          have he2 : (EVCMap.pon_loop resps
              { m with installed := true, status_message := some "" } rest).2.1 =
              Except.error e := by simpa using he
          simpa using ih { m with installed := true, status_message := some "" }
            (by simpa using hen) e he2
      | failed err =>
          rw [hr] at he
          have he2 : (EVCMap.pon_loop resps
              { m with installed := false, status_message := some err } rest).2.1 =
              Except.error e := by simpa using he
          simpa using ih { m with installed := false, status_message := some err }
            (by simpa using hen) e he2
      | exc e2 =>
          simp

/-- C2 (amended): for a valid, not-yet-installed descriptor whose channel
table is present, an exception-free `pon_install` issues exactly one request
per subscriber unit, each containing exactly that unit channels, returns
normally, and leaves the aggregate `installed` flag equal to the LAST unit
submission result (an earlier failed response is overwritten, so the flag is
not the AND of per-unit results); `installed` is set true optimistically, so
an empty table leaves it true; and whenever `pon_install` re-raises a
submission exception, `installed` is false. -/
theorem pon_install_fanout (m : EVCMap) (resps : Nat → NcResponse)
    (table : List (Nat × List Nat))
    (hv : m.valid = true) (hni : m.installed = false) (hg : m.gem_ids = some table)
    (hen : m.evc_name.isSome = true) :
    ((∀ p ∈ table, (resps p.1).isExc = false) →
      (EVCMap.pon_install m resps).2.2 = table.map (fun p => UnitRequest.mk p.1 p.2) ∧
      (EVCMap.pon_install m resps).2.1 =
        Except.ok ((EVCMap.pon_install m resps).1.installed && m.valid) ∧
      (table = [] → (EVCMap.pon_install m resps).1.installed = true) ∧
      (∀ u, table.getLast? = some u →
        (EVCMap.pon_install m resps).1.installed = (resps u.1).respOk)) ∧
    (∀ e, (EVCMap.pon_install m resps).2.1 = Except.error e →
      (EVCMap.pon_install m resps).1.installed = false) := by
  have hcond : (m.valid && !m.installed) = true := by simp [hv, hni]
  have hen2 : ({ m with installed := true } : EVCMap).evc_name.isSome = true := by simpa using hen
  unfold EVCMap.pon_install
  rw [if_pos hcond]
  split
  case h_2 heq =>
      rw [hg] at heq
      cases heq
  case h_1 table2 heq =>
  rw [hg] at heq
  injection heq with heq2
  subst heq2
  constructor
  · intro hne
    obtain ⟨l1, l2, l3⟩ := pon_loop_no_exc resps table { m with installed := true } hen2 hne
    have hvv := (pon_loop_fields resps table { m with installed := true }).1
    refine ⟨l1, ?_, ?_, l3⟩
    · rw [l2, hvv]
    · intro ht
      subst ht
      simp [EVCMap.pon_loop]
  · exact pon_loop_error_installed resps table { m with installed := true } hen2

/-- Witness for C2 at the concrete fan-out descriptor. -/
theorem pon_install_fanout_witness :
    (EVCMap.pon_install pon_map c2_resps).2.2 =
      [UnitRequest.mk 0 [1], UnitRequest.mk 1 [2]] := by
  have h := ((pon_install_fanout pon_map c2_resps [(0, [1]), (1, [2])]
    (by decide) (by decide) (by decide) (by decide)).1 (by decide)).1
  simpa using h

set_option maxHeartbeats 1000000 in
/-- Helper: the decoder always records the derived name and never touches the
circuit back-reference flag. -/
theorem decode_name_set (m0 : EVCMap) (flow : FlowEntry) (evc? : Option EVC) (hnd : Handler) :
    (EVCMap.decode m0 flow evc? hnd).2.1.name =
      some (evc_map_name flow.in_port flow.flow_id) ∧
    (EVCMap.decode m0 flow evc? hnd).2.1.evc_attached = m0.evc_attached := by
  unfold EVCMap.decode
  cases evc? with
  | none => simp
  | some evc =>
      by_cases hp : (hnd.is_pon_port flow.in_port || hnd.is_uni_port flow.in_port) = true
      · rcases hsb : hnd.get_southbound_port flow.in_port with _ | pp <;>
          simp [hp, hsb] <;> split_ifs <;> (try split) <;> simp_all
      · rw [Bool.not_eq_true] at hp
        simp [hp]

set_option maxHeartbeats 1000000 in
/-- Helper: the circuit mutations of the decoder never touch the descriptor
collection. -/
theorem decode_evc_maps (m0 : EVCMap) (flow : FlowEntry) (evc : EVC) (hnd : Handler) :
    ∀ c2, (EVCMap.decode m0 flow (some evc) hnd).2.2 = some c2 →
      c2.evc_maps = evc.evc_maps := by
  unfold EVCMap.decode
  by_cases hp : (hnd.is_pon_port flow.in_port || hnd.is_uni_port flow.in_port) = true
  · rcases hsb : hnd.get_southbound_port flow.in_port with _ | pp <;>
      simp [hp, hsb] <;> split_ifs <;> (try split) <;>
        (intro c2 hc; (try injection hc with hc2); (try subst hc2); simp_all)
  · rw [Bool.not_eq_true] at hp
    simp [hp]

/-- Helper: the registration invariant only depends on validity, name and
attachment. -/
theorem reginv_of_fields (m m2 : EVCMap) (c : EVC)
    (hv : m2.valid = m.valid) (hn : m2.name = m.name) (ha : m2.evc_attached = m.evc_attached)
    (hinv : RegInv m c) : RegInv m2 c := by
  unfold RegInv registered at hinv ⊢
  simp only [hv, hn, ha]
  exact hinv

/-- Helper: construction establishes the registration invariant on a fresh
circuit. -/
theorem mk_establishes_reginv (flow : FlowEntry) (evc : EVC) (ing : Bool) (hnd : Handler)
    (hfresh : evc_map_name flow.in_port flow.flow_id ∉ evc.evc_maps) :
    ∀ c2, (EVCMap.mk_evc_map flow (some evc) ing hnd).2 = some c2 →
      RegInv (EVCMap.mk_evc_map flow (some evc) ing hnd).1 c2 := by
  intro c2 hc2
  obtain ⟨hname, hatt⟩ := decode_name_set (EVCMap.init_map true ing) flow (some evc) hnd
  have hmaps := decode_evc_maps (EVCMap.init_map true ing) flow evc hnd
  simp only [EVCMap.mk_evc_map, Option.isSome_some] at hc2 ⊢
  cases hd : (EVCMap.decode (EVCMap.init_map true ing) flow (some evc) hnd).1 with
  | ok b =>
      cases b with
      | true =>
          rw [hd] at hc2
          simp only at hc2
          cases hdc : (EVCMap.decode (EVCMap.init_map true ing) flow (some evc) hnd).2.2 with
          | none =>
              rw [hdc] at hc2
              simp [hd, hdc] at hc2
          | some c3 =>
              rw [hdc] at hc2
              simp only [hd, hdc]
              simp only at hc2
              split at hc2
              · injection hc2 with hc3
                subst hc3
                constructor
                · constructor
                  · intro _
                    exact ⟨evc_map_name flow.in_port flow.flow_id, by simpa using hname,
                      by simp [EVC.add_evc_map, hname]⟩
                  · intro _
                    simp
                · intro hfa
                  rw [hatt] at hfa
                  simp [EVCMap.init_map] at hfa
              · simp_all
      | false =>
          rw [hd] at hc2
          simp only at hc2
          split at hc2
          · simp_all
          · simp only [hd]
            rw [if_neg (by simp)]
            have hm := hmaps c2 hc2
            constructor
            · constructor
              · intro hfalse
                simp at hfalse
              · intro hreg
                exfalso
                obtain ⟨n, hn, hmem⟩ := hreg
                simp only [hname] at hn
                injection hn with hn2
                subst hn2
                rw [hm] at hmem
                exact hfresh hmem
            · intro _
              intro hreg
              obtain ⟨n, hn, hmem⟩ := hreg
              simp only [hname] at hn
              injection hn with hn2
              subst hn2
              rw [hm] at hmem
              exact hfresh hmem
  | error e =>
      rw [hd] at hc2
      simp only at hc2
      split at hc2
      · simp_all
      · simp only [hd]
        rw [if_neg (by simp)]
        have hm := hmaps c2 hc2
        constructor
        · constructor
          · intro hfalse
            simp at hfalse
          · intro hreg
            exfalso
            obtain ⟨n, hn, hmem⟩ := hreg
            simp only [hname] at hn
            injection hn with hn2
            subst hn2
            rw [hm] at hmem
            exact hfresh hmem
        · intro _
          intro hreg
          obtain ⟨n, hn, hmem⟩ := hreg
          simp only [hname] at hn
          injection hn with hn2
          subst hn2
          rw [hm] at hmem
          exact hfresh hmem

/-- Helper: every lifecycle operation preserves the registration invariant. -/
theorem lifecycle_preserves_reginv (s t : EVCMap × EVC)
    (hinv : RegInv s.1 s.2) (hstep : LifecycleStep s t) : RegInv t.1 t.2 := by
  cases hstep with
  | install_step m c resp resps =>
      obtain ⟨hv, hn, ha, -, -⟩ := install_fields m resp resps
      exact reginv_of_fields m _ c hv hn ha hinv
  | pon_install_step m c resps =>
      obtain ⟨hv, hn, ha, -, -⟩ := pon_install_fields m resps
      exact reginv_of_fields m _ c hv hn ha hinv
  | remove_step m c resp =>
      obtain ⟨hv, hn, ha, -, -⟩ := remove_fields m resp
      exact reginv_of_fields m _ c hv hn ha hinv
  | enable_step m c resp =>
      obtain ⟨hv, hn, ha, -⟩ := enable_fields m resp
      exact reginv_of_fields m _ c hv hn ha hinv
  | disable_step m c resp =>
      obtain ⟨hv, hn, ha, -⟩ := disable_fields m resp
      exact reginv_of_fields m _ c hv hn ha hinv
  | delete_step m c resp =>
      obtain ⟨h1, h2, h3, h4, h5, h6⟩ := delete_fields m c resp
      have hnot : ¬ registered (EVCMap.delete m c resp).1 (EVCMap.delete m c resp).2.1 := by
        rintro ⟨n, hn, hmem⟩
        rw [h4] at hn
        rw [h5] at hmem
        by_cases hat : m.evc_attached = true
        · rw [if_pos hat] at hmem
          rw [hn] at hmem
          simp [EVC.remove_evc_map, List.mem_filter] at hmem
        · rw [if_neg hat] at hmem
          rw [Bool.not_eq_true] at hat
          exact hinv.2 hat ⟨n, hn, hmem⟩
      exact ⟨iff_of_false (by simp [h1]) hnot, fun _ => hnot⟩

/-- C6: after construction on a circuit not already holding the descriptor
name, the descriptor is registered in the circuit collection iff
`valid = true` (a failed decode leaves it unregistered and without a circuit
reference), and every lifecycle operation - including `delete`, the only one
that clears `valid`, which also deregisters - preserves this invariant. -/
theorem registration_iff_valid :
    (∀ (flow : FlowEntry) (evc : EVC) (ing : Bool) (hnd : Handler),
      evc_map_name flow.in_port flow.flow_id ∉ evc.evc_maps →
      ∀ c2, (EVCMap.mk_evc_map flow (some evc) ing hnd).2 = some c2 →
        RegInv (EVCMap.mk_evc_map flow (some evc) ing hnd).1 c2) ∧
    (∀ s t : EVCMap × EVC, RegInv s.1 s.2 → LifecycleStep s t → RegInv t.1 t.2) :=
  ⟨fun flow evc ing hnd hfresh => mk_establishes_reginv flow evc ing hnd hfresh,
   fun s t hinv hstep => lifecycle_preserves_reginv s t hinv hstep⟩

/-- Witness for C6: the invariant holds for the concrete registered ACL
descriptor and its circuit. -/
theorem registration_iff_valid_witness :
    RegInv (EVCMap.mk_evc_map acl_flow (some evc_a) true uni_handler).1 acl_circuit :=
  registration_iff_valid.1 acl_flow evc_a true uni_handler (by decide) acl_circuit (by decide)
